import Mathlib

/-!
Shallow embedding of the bn2sb installer core (src/installer-rs):
disk partitioning and naming (disk.rs), the swap policy, driver
resolution, boot configuration and the installation pipeline
(installer.rs). External commands are modelled by boolean oracles
recording whether each fatal invocation succeeds; the pure decision
logic is translated directly from the Rust source.
-/

namespace Bn2sb

/-- Boolean test that `pat` is a prefix of the second list, mirroring
Rust byte-wise prefix comparison on ASCII strings. -/
def startsWithCL : List Char → List Char → Bool
  | [], _ => true
  | _ :: _, [] => false
  | a :: as, b :: bs => a == b && startsWithCL as bs

/-- Boolean test that `pat` occurs contiguously inside the second list,
mirroring Rust `str::contains` on ASCII strings. -/
def containsCL (pat : List Char) : List Char → Bool
  | [] => startsWithCL pat []
  | b :: bs => startsWithCL pat (b :: bs) || containsCL pat bs

/-- Rust `s.contains(pat)` for string patterns (ASCII data). -/
def strContains (s pat : String) : Bool := containsCL pat.data s.data

/-- Rust `s.starts_with(pat)` (ASCII data). -/
def strStartsWith (s pat : String) : Bool := startsWithCL pat.data s.data

/-- Rust partition scheme enum from disk.rs. -/
inductive PartitionScheme
  | GptUefi
  | MbrBios
deriving DecidableEq, Repr

/-- Rust `PartitionLayout` struct from disk.rs. -/
structure PartitionLayout where
  efi_partition : String
  root_partition : String
  scheme : PartitionScheme
deriving DecidableEq, Repr

/-- Device-name test from disk.rs line 121:
`let is_nvme = disk.contains("nvme") || disk.contains("mmcblk")`. -/
def is_nvme (disk : String) : Bool :=
  strContains disk "nvme" || strContains disk "mmcblk"

/-- Partition-name assignment of `partition_disk` (disk.rs lines
151-157 and 176-180): for NVMe/MMC-style disks the suffix gets a `p`
separator; MbrBios leaves `efi_partition` at its initial empty string. -/
def deriveNames (disk : String) (scheme : PartitionScheme) : PartitionLayout :=
  match scheme with
  | PartitionScheme.GptUefi =>
    if is_nvme disk then
      { efi_partition := disk ++ "p1", root_partition := disk ++ "p2",
        scheme := PartitionScheme.GptUefi }
    else
      { efi_partition := disk ++ "1", root_partition := disk ++ "2",
        scheme := PartitionScheme.GptUefi }
  | PartitionScheme.MbrBios =>
    if is_nvme disk then
      { efi_partition := "", root_partition := disk ++ "p1",
        scheme := PartitionScheme.MbrBios }
    else
      { efi_partition := "", root_partition := disk ++ "1",
        scheme := PartitionScheme.MbrBios }

/-- Success oracle for the fatal `parted` invocations inside
`partition_disk` (the best-effort unmount/wipe steps never abort and
are not recorded). `mkpartEfi` is consulted only for GptUefi. -/
structure CmdOracle where
  mklabel : Bool
  mkpartEfi : Bool
  mkpartRoot : Bool
deriving DecidableEq, Repr

/-- Rust `partition_disk` (disk.rs lines 84-190), with external command
results supplied by `o`: any fatal `parted` failure returns `None`,
otherwise the layout named per `deriveNames`. -/
def partition_disk (o : CmdOracle) (disk : String) (scheme : PartitionScheme) :
    Option PartitionLayout :=
  match scheme with
  | PartitionScheme.GptUefi =>
    if o.mklabel = false then none
    else if o.mkpartEfi = false then none
    else if o.mkpartRoot = false then none
    else some (deriveNames disk PartitionScheme.GptUefi)
  | PartitionScheme.MbrBios =>
    if o.mklabel = false then none
    else if o.mkpartRoot = false then none
    else some (deriveNames disk PartitionScheme.MbrBios)

theorem append_ne_empty (s t : String) (ht : t ≠ "") : s ++ t ≠ "" := by
  intro h
  apply ht
  have hd : (s ++ t).data = ("" : String).data := by rw [h]
  rw [String.data_append] at hd
  have : t.data = [] := (List.append_eq_nil.mp hd).2
  exact String.ext this

/-- C1: partition name derivation. Every layout returned by
`partition_disk` carries the names of `deriveNames`; NVMe/MMC-style
disks get a `p` separator before the partition number, others do not;
and the three concrete layouts from the spec hold. -/
theorem C1_partition_naming :
    (∀ (o : CmdOracle) (disk : String) (scheme : PartitionScheme) (l : PartitionLayout),
      partition_disk o disk scheme = some l → l = deriveNames disk scheme)
    ∧ (∀ disk : String, is_nvme disk = true →
        (deriveNames disk PartitionScheme.GptUefi).efi_partition = disk ++ "p1"
        ∧ (deriveNames disk PartitionScheme.GptUefi).root_partition = disk ++ "p2"
        ∧ (deriveNames disk PartitionScheme.MbrBios).root_partition = disk ++ "p1")
    ∧ (∀ disk : String, is_nvme disk = false →
        (deriveNames disk PartitionScheme.GptUefi).efi_partition = disk ++ "1"
        ∧ (deriveNames disk PartitionScheme.GptUefi).root_partition = disk ++ "2"
        ∧ (deriveNames disk PartitionScheme.MbrBios).root_partition = disk ++ "1")
    ∧ deriveNames "/dev/nvme0n1" PartitionScheme.GptUefi =
        { efi_partition := "/dev/nvme0n1p1", root_partition := "/dev/nvme0n1p2",
          scheme := PartitionScheme.GptUefi }
    ∧ deriveNames "/dev/sda" PartitionScheme.GptUefi =
        { efi_partition := "/dev/sda1", root_partition := "/dev/sda2",
          scheme := PartitionScheme.GptUefi }
    ∧ deriveNames "/dev/sda" PartitionScheme.MbrBios =
        { efi_partition := "", root_partition := "/dev/sda1",
          scheme := PartitionScheme.MbrBios } := by
  refine ⟨?_, ?_, ?_, by decide, by decide, by decide⟩
  · intro o disk scheme l h
    cases scheme <;> simp only [partition_disk] at h <;> split_ifs at h <;>
      simp_all
  · intro disk h
    simp [deriveNames, h]
  · intro disk h
    simp [deriveNames, h]

/-- Witness for C1 at concrete inputs. -/
theorem C1_partition_naming_witness :
    (deriveNames "/dev/sda" PartitionScheme.GptUefi =
      deriveNames "/dev/sda" PartitionScheme.GptUefi)
    ∧ ((deriveNames "/dev/nvme0n1" PartitionScheme.GptUefi).efi_partition =
        "/dev/nvme0n1" ++ "p1"
      ∧ (deriveNames "/dev/nvme0n1" PartitionScheme.GptUefi).root_partition =
        "/dev/nvme0n1" ++ "p2"
      ∧ (deriveNames "/dev/nvme0n1" PartitionScheme.MbrBios).root_partition =
        "/dev/nvme0n1" ++ "p1")
    ∧ ((deriveNames "/dev/sda" PartitionScheme.GptUefi).efi_partition =
        "/dev/sda" ++ "1"
      ∧ (deriveNames "/dev/sda" PartitionScheme.GptUefi).root_partition =
        "/dev/sda" ++ "2"
      ∧ (deriveNames "/dev/sda" PartitionScheme.MbrBios).root_partition =
        "/dev/sda" ++ "1") :=
  ⟨C1_partition_naming.1 ⟨true, true, true⟩ "/dev/sda" PartitionScheme.GptUefi
      (deriveNames "/dev/sda" PartitionScheme.GptUefi) rfl,
    C1_partition_naming.2.1 "/dev/nvme0n1" (by decide),
    C1_partition_naming.2.2.1 "/dev/sda" (by decide)⟩

/-- C8: every layout produced by a successful `partition_disk` has a
non-empty `efi_partition` exactly when its scheme is GptUefi. -/
theorem C8_efi_partition_iff_gpt (o : CmdOracle) (disk : String)
    (scheme : PartitionScheme) (l : PartitionLayout)
    (h : partition_disk o disk scheme = some l) :
    l.efi_partition ≠ "" ↔ l.scheme = PartitionScheme.GptUefi := by
  have hl : l = deriveNames disk scheme := by
    cases scheme <;> simp only [partition_disk] at h <;> split_ifs at h <;>
      simp_all
  subst hl
  cases scheme with
  | GptUefi =>
    constructor
    · intro _; simp [deriveNames]; split_ifs <;> rfl
    · intro _
      simp only [deriveNames]
      split_ifs
      · exact append_ne_empty _ _ (by decide)
      · exact append_ne_empty _ _ (by decide)
  | MbrBios =>
    constructor
    · intro hne
      exfalso
      apply hne
      simp only [deriveNames]
      split_ifs <;> rfl
    · intro hs
      exfalso
      have : (deriveNames disk PartitionScheme.MbrBios).scheme =
          PartitionScheme.MbrBios := by
        simp only [deriveNames]; split_ifs <;> rfl
      rw [hs] at this
      exact PartitionScheme.noConfusion this

/-- Witness for C8 at a concrete successful provisioning. -/
theorem C8_efi_partition_iff_gpt_witness :
    ((deriveNames "/dev/sda" PartitionScheme.GptUefi).efi_partition ≠ ""
      ↔ (deriveNames "/dev/sda" PartitionScheme.GptUefi).scheme =
          PartitionScheme.GptUefi) :=
  C8_efi_partition_iff_gpt ⟨true, true, true⟩ "/dev/sda" PartitionScheme.GptUefi
    (deriveNames "/dev/sda" PartitionScheme.GptUefi) rfl

/-- Rust `SwapMode` enum from config.rs. -/
inductive SwapMode
  | None
  | Small
  | Suspend
  | File
deriving DecidableEq, Repr

/-- Rust `SwapMode::from_str` (config.rs lines 15-22): unrecognized
labels default to Suspend. -/
def SwapMode.fromStr (s : String) : SwapMode :=
  if s = "none" then SwapMode.None
  else if s = "small" then SwapMode.Small
  else if s = "suspend" then SwapMode.Suspend
  else if s = "file" then SwapMode.File
  else SwapMode.Suspend

/-- Swap size in MB computed inside `Installer::setup_swap`
(installer.rs lines 409-445): None computes nothing (0), Small is
`ram_mb / 2`, Suspend is `ram_mb`, File is `ram_mb.min(8192)`. -/
def swapSizeMB (mode : SwapMode) (ram_mb : Nat) : Nat :=
  match mode with
  | SwapMode.None => 0
  | SwapMode.Small => ram_mb / 2
  | SwapMode.Suspend => ram_mb
  | SwapMode.File => min ram_mb 8192

/-- Rust `Installer::create_swap_file` (installer.rs lines 448-474):
a zero size short-circuits and no file is materialized; otherwise a
file of `size_mb` MB is created. -/
def create_swap_file (size_mb : Nat) : Option Nat :=
  if size_mb = 0 then none else some size_mb

/-- Rust `Installer::setup_swap` (installer.rs lines 409-445): the
swap file materialized (its size), or `none` when no file is created. -/
def setup_swap (mode : SwapMode) (ram_mb : Nat) : Option Nat :=
  match mode with
  | SwapMode.None => none
  | SwapMode.Small => create_swap_file (ram_mb / 2)
  | SwapMode.Suspend => create_swap_file ram_mb
  | SwapMode.File => create_swap_file (ram_mb.min 8192)

/-- C3: swap size computation. For every ramMB: None yields 0 (and no
file), Small yields ramMB / 2, Suspend yields ramMB, File yields
min(ramMB, 8192); concrete values at ramMB = 8192 and 16384 as the
spec states. -/
theorem C3_swap_size (ram_mb : Nat) :
    swapSizeMB SwapMode.None ram_mb = 0
    ∧ swapSizeMB SwapMode.Small ram_mb = ram_mb / 2
    ∧ swapSizeMB SwapMode.Suspend ram_mb = ram_mb
    ∧ swapSizeMB SwapMode.File ram_mb = min ram_mb 8192
    ∧ setup_swap SwapMode.None ram_mb = none
    ∧ swapSizeMB SwapMode.Small 8192 = 4096
    ∧ swapSizeMB SwapMode.Suspend 8192 = 8192
    ∧ swapSizeMB SwapMode.File 8192 = 8192
    ∧ swapSizeMB SwapMode.None 8192 = 0
    ∧ swapSizeMB SwapMode.File 16384 = 8192 :=
  ⟨rfl, rfl, rfl, rfl, rfl, rfl, rfl, rfl, rfl, rfl⟩

/-- Boot path actually executed by `Installer::install_bootloader`. -/
inductive BootPath
  | grub
  | nmbl
deriving DecidableEq, Repr

/-- Rust `Installer::install_bootloader` (installer.rs lines 700-841):
returns whether the step succeeded and which boot path ran. The NMBL
(EFISTUB direct boot) path runs only when requested on UEFI firmware;
requesting it on BIOS prints a warning and falls through to GRUB. The
GRUB path ignores the results of its chroot commands and returns true;
the NMBL path fails exactly when `efibootmgr --create` fails. -/
def install_bootloader (bootloader : String) (uefi : Bool)
    (efibootmgrOk : Bool) : Bool × BootPath :=
  if bootloader = "nmbl" then
    if uefi = false then
      (true, BootPath.grub)
    else if efibootmgrOk then (true, BootPath.nmbl)
    else (false, BootPath.nmbl)
  else (true, BootPath.grub)

/-- C5: requesting direct boot ("nmbl") on BIOS-only firmware executes
the conventional GRUB path and the step succeeds, regardless of
whether the (never reached) firmware-entry command would have failed. -/
theorem C5_directboot_fallback (efibootmgrOk : Bool) :
    install_bootloader "nmbl" false efibootmgrOk = (true, BootPath.grub) := by
  rfl

/-- Pipeline steps of `Installer::install` (installer.rs lines 69-135). -/
inductive Step
  | prepareDisk
  | baseSystem
  | fstab
  | configureSystem
  | drivers
  | packages
  | locale
  | users
  | bootloader
  | finalize
deriving DecidableEq, Repr

/-- Success oracle for the fallible external operations of one
installation run, together with the firmware mode and the configured
bootloader. Steps 4-8 (configure_system, drivers, install_packages,
configure_locale, configure_input_method, configure_users) always
return true in the source and so need no oracle entry. -/
structure World where
  uefi : Bool
  partitionOk : Bool
  formatOk : Bool
  rootMountOk : Bool
  efiMountOk : Bool
  pacstrapOk : Bool
  fstabOk : Bool
  efibootmgrOk : Bool
  bootloaderCfg : String
deriving DecidableEq, Repr

/-- Observable outcome of one `Installer::install` run. -/
structure RunResult where
  success : Bool
  error : String
  executed : List Step
  rootMounted : Bool
  unmounted : Bool
deriving DecidableEq, Repr

/-- Rust `Installer::install` (installer.rs lines 69-135) together
with `prepare_disk` (lines 137-169): each failing step returns false
immediately with the error recorded on the context; `finalize`
(lines 843-1217) is step 10, always calls `unmount_partitions` and
returns true. `executed` lists the steps entered; `rootMounted` records
whether the root mount in `mount_partitions` succeeded at any point;
`unmounted` records whether `unmount_partitions` was invoked.
`install_bootloader` sets no error message on failure in the source,
so the error stays at its initial empty string there. -/
def install (w : World) : RunResult :=
  if w.partitionOk = false then
    { success := false, error := "Failed to partition disk",
      executed := [Step.prepareDisk], rootMounted := false, unmounted := false }
  else if w.formatOk = false then
    { success := false, error := "Failed to format partitions",
      executed := [Step.prepareDisk], rootMounted := false, unmounted := false }
  else if w.rootMountOk = false then
    { success := false, error := "Failed to mount partitions",
      executed := [Step.prepareDisk], rootMounted := false, unmounted := false }
  else if w.uefi = true ∧ w.efiMountOk = false then
    { success := false, error := "Failed to mount partitions",
      executed := [Step.prepareDisk], rootMounted := true, unmounted := false }
  else if w.pacstrapOk = false then
    { success := false, error := "pacstrap failed",
      executed := [Step.prepareDisk, Step.baseSystem],
      rootMounted := true, unmounted := false }
  else if w.fstabOk = false then
    { success := false, error := "Failed to generate fstab",
      executed := [Step.prepareDisk, Step.baseSystem, Step.fstab],
      rootMounted := true, unmounted := false }
  else if (install_bootloader w.bootloaderCfg w.uefi w.efibootmgrOk).1 = false then
    { success := false, error := "",
      executed := [Step.prepareDisk, Step.baseSystem, Step.fstab,
        Step.configureSystem, Step.drivers, Step.packages, Step.locale,
        Step.users, Step.bootloader],
      rootMounted := true, unmounted := false }
  else
    { success := true, error := "",
      executed := [Step.prepareDisk, Step.baseSystem, Step.fstab,
        Step.configureSystem, Step.drivers, Step.packages, Step.locale,
        Step.users, Step.bootloader, Step.finalize],
      rootMounted := true, unmounted := true }

/-- Concrete run in which disk preparation fully succeeds (the root is
mounted) but pacstrap fails. -/
def pacstrapFailWorld : World :=
  { uefi := true
    partitionOk := true
    formatOk := true
    rootMountOk := true
    efiMountOk := true
    pacstrapOk := false
    fstabOk := true
    efibootmgrOk := true
    bootloaderCfg := "grub" }

/-- C2 counterexample: a run whose disk preparation (including the root
mount) fully succeeds but whose base-system installation (pacstrap)
fails returns immediately; `finalize` never runs and the mount root is
left mounted, refuting the claim that the root is unmounted at the end
of every run in which it was mounted. -/
theorem C2_counterexample :
    (install pacstrapFailWorld).rootMounted = true
    ∧ (install pacstrapFailWorld).unmounted = false
    ∧ ¬ Step.finalize ∈ (install pacstrapFailWorld).executed := by
  decide

/-- C2 amended: the mount root is unmounted exactly when the run
reaches the finalize step, which happens exactly when the whole run
succeeds; any failure, also one occurring after the root was mounted,
skips finalize and leaves the mount root mounted. -/
theorem C2_unmount_iff_finalize (w : World) :
    ((install w).unmounted = true ↔ (install w).success = true)
    ∧ ((install w).unmounted = true ↔ Step.finalize ∈ (install w).executed) := by
  unfold install
  split_ifs <;> simp

/-- C4: when partitioning succeeds but formatting fails, the run stops
inside the disk-preparation step: it fails, the recorded error is the
formatting one, no later pipeline step executes, nothing is mounted
and no unmount is attempted. -/
theorem C4_format_failure_aborts (w : World)
    (h1 : w.partitionOk = true) (h2 : w.formatOk = false) :
    (install w).success = false
    ∧ (install w).error = "Failed to format partitions"
    ∧ (install w).executed = [Step.prepareDisk]
    ∧ (install w).rootMounted = false
    ∧ (install w).unmounted = false := by
  unfold install
  rw [h1, h2]
  simp

/-- Concrete run in which partitioning succeeds but formatting fails. -/
def formatFailWorld : World :=
  { uefi := true
    partitionOk := true
    formatOk := false
    rootMountOk := true
    efiMountOk := true
    pacstrapOk := true
    fstabOk := true
    efibootmgrOk := true
    bootloaderCfg := "grub" }

/-- Witness for C4 at a concrete world. -/
theorem C4_format_failure_aborts_witness :
    (install formatFailWorld).success = false
    ∧ (install formatFailWorld).error = "Failed to format partitions"
    ∧ (install formatFailWorld).executed = [Step.prepareDisk]
    ∧ (install formatFailWorld).rootMounted = false
    ∧ (install formatFailWorld).unmounted = false :=
  C4_format_failure_aborts formatFailWorld rfl rfl

/-- Index of the last occurrence of `c` in a character list, mirroring
Rust `str::rfind(char)` on ASCII data (byte index = character index). -/
def rlastIdx (c : Char) : List Char → Option Nat
  | [] => none
  | a :: as =>
    match rlastIdx c as with
    | some i => some (i + 1)
    | none => if a == c then some 0 else none

/-- Rust slice `s[..n]` on ASCII data. -/
def strTake (s : String) (n : Nat) : String := String.mk (s.data.take n)

/-- Rust slice `s[n..]` on ASCII data (caller must ensure `n ≤ len`,
which the embedding checks explicitly where the source may violate it). -/
def strDrop (s : String) (n : Nat) : String := String.mk (s.data.drop n)

/-- Start index of the maximal trailing ASCII-digit run, mirroring the
reverse loop of installer.rs lines 748-756 (`num_start` stays at the
length when the string does not end in a digit). -/
def trailingDigitStart (s : String) : Nat :=
  s.data.length - (s.data.reverse.takeWhile Char.isDigit).length

/-- Boot-entry device/partition split of `Installer::install_bootloader`
(installer.rs lines 738-761). For NVMe/MMC-style paths the source
computes `p_pos = rfind('p').unwrap_or(len)` and slices
`efi_part[p_pos + 1..]`; when the path holds no `p` that slice starts
past the end of the string and the program panics, modelled as `none`. -/
def splitEfiPart (efi_part : String) : Option (String × String) :=
  if strContains efi_part "nvme" || strContains efi_part "mmcblk" then
    let p_pos := (rlastIdx 'p' efi_part.data).getD efi_part.data.length
    if p_pos + 1 ≤ efi_part.data.length then
      some (strTake efi_part p_pos, strDrop efi_part (p_pos + 1))
    else none
  else
    let num_start := trailingDigitStart efi_part
    some (strTake efi_part num_start, strDrop efi_part num_start)

/-- C6: the boot-entry split yields disk `/dev/nvme0n1` and partition
`1` for `/dev/nvme0n1p1`, disk `/dev/sda` and partition `1` for
`/dev/sda1`, and disk `/dev/mmcblk0` and partition `2` for
`/dev/mmcblk0p2`. -/
theorem C6_boot_entry_split :
    splitEfiPart "/dev/nvme0n1p1" = some ("/dev/nvme0n1", "1")
    ∧ splitEfiPart "/dev/sda1" = some ("/dev/sda", "1")
    ∧ splitEfiPart "/dev/mmcblk0p2" = some ("/dev/mmcblk0", "2") := by
  decide

theorem rlastIdx_isSome_of_mem (c : Char) (l : List Char) (h : c ∈ l) :
    (rlastIdx c l).isSome = true := by
  induction l with
  | nil => cases h
  | cons a as ih =>
    simp only [rlastIdx]
    cases hr : rlastIdx c as with
    | some i => simp
    | none =>
      rcases List.mem_cons.mp h with h1 | h2
      · subst h1
        simp
      · have hs := ih h2
        rw [hr] at hs
        simp at hs

theorem rlastIdx_lt_length (c : Char) (l : List Char) (i : Nat)
    (h : rlastIdx c l = some i) : i < l.length := by
  induction l generalizing i with
  | nil => simp [rlastIdx] at h
  | cons a as ih =>
    simp only [rlastIdx] at h
    cases hr : rlastIdx c as with
    | some j =>
      rw [hr] at h
      cases h
      have := ih j hr
      simp only [List.length_cons]
      omega
    | none =>
      rw [hr] at h
      split_ifs at h
      cases h
      simp

/-- C10: the boot-entry split is not total. The path `/dev/nvme0n1`
contains `nvme` but no `p` character, and the split slices past the end
of the string (a panic in the source, `none` in the embedding); under
the precondition that an NVMe/MMC-style path contains a `p` the split
always returns a result. -/
theorem C10_split_partiality :
    (strContains "/dev/nvme0n1" "nvme" = true
      ∧ 'p' ∉ "/dev/nvme0n1".data
      ∧ splitEfiPart "/dev/nvme0n1" = none)
    ∧ (∀ s : String,
        (strContains s "nvme" || strContains s "mmcblk") = true →
        'p' ∈ s.data → (splitEfiPart s).isSome = true) := by
  constructor
  · exact ⟨by decide, by decide, by decide⟩
  · intro s hn hp
    have hs := rlastIdx_isSome_of_mem 'p' s.data hp
    obtain ⟨i, hi⟩ := Option.isSome_iff_exists.mp hs
    have hlt := rlastIdx_lt_length 'p' s.data i hi
    simp only [splitEfiPart, hn, if_true, hi, Option.getD_some]
    rw [if_pos (Nat.succ_le_of_lt hlt)]
    rfl

/-- Witness for the totality half of C10 at a concrete path. -/
theorem C10_split_partiality_witness :
    (splitEfiPart "/dev/nvme0n1p1").isSome = true :=
  C10_split_partiality.2 "/dev/nvme0n1p1" (by decide) (by decide)

/-- Rust `str::to_lowercase` restricted to its ASCII behaviour
(character-wise lowering), applied to the lspci output at
installer.rs line 485. -/
def strToLower (s : String) : String := String.mk (s.data.map Char.toLower)

/-- GPU signature test `has_nvidia` (installer.rs line 490), applied to
the case-folded lspci text. -/
def has_nvidia (l : String) : Bool := strContains l "nvidia"

/-- GPU signature test `has_amd_gpu` (installer.rs lines 491-493). -/
def has_amd_gpu (l : String) : Bool :=
  strContains l "[amd/ati]" || strContains l "radeon"
    || (strContains l "amd" && strContains l "vga")

/-- GPU signature test `has_intel_gpu` (installer.rs lines 494-495). -/
def has_intel_gpu (l : String) : Bool :=
  strContains l "intel" && (strContains l "vga" || strContains l "display")

/-- Network signature test `has_broadcom` (installer.rs lines 534-536). -/
def has_broadcom (l : String) : Bool :=
  strContains l "broadcom"
    && (strContains l "wireless" || strContains l "network"
        || strContains l "bcm43")

/-- Network signature test `has_realtek_wifi` (installer.rs lines
543-544); recognized Realtek hardware adds no package. -/
def has_realtek_wifi (l : String) : Bool :=
  strContains l "realtek" && (strContains l "wireless" || strContains l "rtl8")

/-- NVIDIA driver stack (installer.rs lines 499-505). -/
def nvidiaPackages : List String :=
  ["nvidia", "nvidia-utils", "nvidia-settings", "lib32-nvidia-utils",
    "libva-nvidia-driver"]

/-- AMD driver stack (installer.rs lines 510-517). -/
def amdPackages : List String :=
  ["xf86-video-amdgpu", "vulkan-radeon", "lib32-vulkan-radeon",
    "libva-mesa-driver", "lib32-libva-mesa-driver", "mesa-vdpau"]

/-- Intel driver stack (installer.rs lines 522-526). -/
def intelPackages : List String :=
  ["vulkan-intel", "lib32-vulkan-intel", "intel-media-driver"]

/-- Rust `Installer::detect_and_install_drivers` (installer.rs lines
482-594), resolution part: the ordered driver package list built from
the case-folded lspci text (GPU categories first, then network), and
the `has_32bit` flag computed as
`driver_packages.iter().any(|p| p.starts_with("lib32-"))` (line 569). -/
def detect_and_install_drivers (lspci_output : String) :
    List String × Bool :=
  let l := strToLower lspci_output
  let driver_packages :=
    (if has_nvidia l then nvidiaPackages else [])
      ++ (if has_amd_gpu l then amdPackages else [])
      ++ (if has_intel_gpu l then intelPackages else [])
      ++ (if has_broadcom l then ["broadcom-wl-dkms"] else [])
  let has_32bit := driver_packages.any (fun p => strStartsWith p "lib32-")
  (driver_packages, has_32bit)

/-- C7: driver resolution is deterministic on the scan text; an NVIDIA
signature puts `lib32-nvidia-utils` (a 32-bit-marked package) in the
set and forces `requires_32bit`; no recognized GPU or network signature
gives the empty set with `requires_32bit` false; and `requires_32bit`
is exactly "some resolved package name starts with the 32-bit marker". -/
theorem C7_driver_resolution :
    (∀ s t : String, s = t →
      detect_and_install_drivers s = detect_and_install_drivers t)
    ∧ (∀ s : String, has_nvidia (strToLower s) = true →
        "lib32-nvidia-utils" ∈ (detect_and_install_drivers s).1
        ∧ strStartsWith "lib32-nvidia-utils" "lib32-" = true
        ∧ (detect_and_install_drivers s).2 = true)
    ∧ (∀ s : String, has_nvidia (strToLower s) = false →
        has_amd_gpu (strToLower s) = false →
        has_intel_gpu (strToLower s) = false →
        has_broadcom (strToLower s) = false →
        (detect_and_install_drivers s).1 = []
        ∧ (detect_and_install_drivers s).2 = false)
    ∧ (∀ s : String, (detect_and_install_drivers s).2 =
        ((detect_and_install_drivers s).1.any
          (fun p => strStartsWith p "lib32-"))) := by
  refine ⟨?_, ?_, ?_, ?_⟩
  · intro s t h
    rw [h]
  · intro s h
    refine ⟨?_, by decide, ?_⟩
    · simp [detect_and_install_drivers, h, nvidiaPackages]
    · have hnv : nvidiaPackages.any (fun p => strStartsWith p "lib32-") =
          true := by decide
      simp only [detect_and_install_drivers, h, if_true, List.any_append,
        hnv, Bool.true_or]
  · intro s h1 h2 h3 h4
    simp [detect_and_install_drivers, h1, h2, h3, h4]
  · intro s
    rfl

/-- Witness for C7 at concrete scan texts. -/
theorem C7_driver_resolution_witness :
    (detect_and_install_drivers "nvidia geforce" =
      detect_and_install_drivers "nvidia geforce")
    ∧ ("lib32-nvidia-utils" ∈ (detect_and_install_drivers "nvidia geforce").1
      ∧ strStartsWith "lib32-nvidia-utils" "lib32-" = true
      ∧ (detect_and_install_drivers "nvidia geforce").2 = true)
    ∧ ((detect_and_install_drivers "audio device").1 = []
      ∧ (detect_and_install_drivers "audio device").2 = false) :=
  ⟨C7_driver_resolution.1 "nvidia geforce" "nvidia geforce" rfl,
    C7_driver_resolution.2.1 "nvidia geforce" (by decide),
    C7_driver_resolution.2.2.1 "audio device" (by decide) (by decide)
      (by decide) (by decide)⟩

/-- Device chosen for the root mount in `mount_partitions` (disk.rs
lines 250-254): the source branches on whether the filesystem path
`/dev/mapper/cryptroot` exists, never on the `use_encryption`
configuration flag, so the embedding takes only the path-existence
bit. -/
def mountedRootDevice (layout : PartitionLayout) (mapperExists : Bool) :
    String :=
  if mapperExists then "/dev/mapper/cryptroot" else layout.root_partition

/-- Rust `mount_partitions` (disk.rs lines 246-277): returns whether
mounting succeeded and the device that was used (or attempted) for the
root mount. The EFI partition is additionally mounted only for
GptUefi layouts. -/
def mount_partitions (layout : PartitionLayout) (mapperExists : Bool)
    (mountRootOk : Bool) (mountEfiOk : Bool) : Bool × String :=
  let root_dev := mountedRootDevice layout mapperExists
  if mountRootOk = false then (false, root_dev)
  else if layout.scheme = PartitionScheme.GptUefi ∧ mountEfiOk = false then
    (false, root_dev)
  else (true, root_dev)

/-- C9: the device mounted at the mount root is selected by the
existence of `/dev/mapper/cryptroot` alone (the `use_encryption` flag
is not consulted by `mount_partitions`): when the mapper path exists
the mapped device is mounted, otherwise the layout's raw root
partition, for every layout and every outcome of the mount commands. -/
theorem C9_mount_selects_by_mapper_path (layout : PartitionLayout)
    (mountRootOk mountEfiOk : Bool) :
    (mount_partitions layout true mountRootOk mountEfiOk).2 =
        "/dev/mapper/cryptroot"
    ∧ (mount_partitions layout false mountRootOk mountEfiOk).2 =
        layout.root_partition := by
  constructor <;>
    · unfold mount_partitions
      split_ifs <;> rfl

end Bn2sb
